import Mathlib

/-!
Shallow embedding of the configuration and blocklist core of the
`unbound` add-on (`web/config_gen.py` and `web/app.py`), together with
proofs about it.

JSON-shaped values are modelled by `Value`; Python dictionaries by
association lists with first-match lookup; the filesystem state touched
by the config pipeline by `St`; external processes (the syntax checker,
`unbound-control reload`, `curl` fetches) by explicit parameters.
-/

set_option autoImplicit false

/-- A JSON-shaped Python value as it occurs in the config documents:
booleans, integers, strings and lists of strings. -/
inductive Value where
  | vBool (b : Bool)
  | vInt (n : Int)
  | vStr (s : String)
  | vList (xs : List String)
  deriving DecidableEq, Repr

/-- Python `isinstance(val, bool)`. -/
def pyIsInstBool : Value → Bool
  | .vBool _ => true
  | _ => false

/-- Python `isinstance(val, int)`: `bool` is a subtype of `int` in Python,
so booleans also pass this test. -/
def pyIsInstInt : Value → Bool
  | .vBool _ => true
  | .vInt _ => true
  | _ => false

/-- Python `isinstance(val, list)`. -/
def pyIsInstList : Value → Bool
  | .vList _ => true
  | _ => false

/-- Python `type(val).__name__`. -/
def typeName : Value → String
  | .vBool _ => "bool"
  | .vInt _ => "int"
  | .vStr _ => "str"
  | .vList _ => "list"

/-- Python truthiness of a value (`if val:`). -/
def truthy : Value → Bool
  | .vBool b => b
  | .vInt n => n != 0
  | .vStr s => !s.isEmpty
  | .vList xs => !xs.isEmpty

/-- Python truthiness of `dict.get(key)` (absent key gives `None`, which is falsy). -/
def truthyO : Option Value → Bool
  | none => false
  | some v => truthy v

/-- Python `==` on these values: `True == 1` and `False == 0` hold because
`bool` is an `int` subtype; all other cross-kind comparisons are unequal. -/
def pyEq : Value → Value → Bool
  | .vBool a, .vBool b => a == b
  | .vBool a, .vInt n => (if a then (1 : Int) else 0) == n
  | .vInt n, .vBool a => n == (if a then (1 : Int) else 0)
  | .vInt a, .vInt b => a == b
  | .vStr a, .vStr b => a == b
  | .vList a, .vList b => a == b
  | _, _ => false

/-- Python `!=` on optional values (`dict.get` results; `None` equals only `None`). -/
def pyNeO : Option Value → Option Value → Bool
  | none, none => false
  | some a, some b => !pyEq a b
  | _, _ => true

/-- A Python `dict` with string keys, as an association list
(first match wins on lookup, mirroring unique-key dictionaries). -/
abbrev PDict (β : Type) := List (String × β)

/-- A configuration document: a dict from option key to JSON value. -/
abbrev Dict := PDict Value

/-- Dictionary lookup (`d[k]` / `d.get(k)`): the value of the first pair
whose key matches. -/
def dget {β : Type} : PDict β → String → Option β
  | [], _ => none
  | p :: d, k => if p.1 = k then some p.2 else dget d k

/-- Dictionary assignment `d[k] = v`: replaces the value in place when the key
is present, otherwise appends the new pair (insertion-order semantics). -/
def dset {β : Type} : PDict β → String → β → PDict β
  | [], k, v => [(k, v)]
  | p :: d, k, v => if p.1 = k then (k, v) :: d else p :: dset d k v

/-- Python `base.update(upd)` on dicts, as a new association list: values of
existing keys are replaced in place, new keys are appended in `upd` order. -/
def dictUpdate {β : Type} (base upd : PDict β) : PDict β :=
  base.map (fun p => match dget upd p.1 with
    | some v => (p.1, v)
    | none => p) ++
  upd.filter (fun p => (dget base p.1).isNone)

/-! ### Character-level text primitives

The Lean core `String` functions are implemented on byte positions and do not
reduce inside the kernel, so the Python string operations used by the source
are implemented here structurally over `String.data`. -/

/-- Python whitespace for `str.strip`/`str.split()` (ASCII forms). -/
def pyIsSpace (c : Char) : Bool :=
  c == ' ' || c == '\t' || c == '\n' || c == '\r' || c == '\x0b' || c == '\x0c'

/-- Python `str.strip()`: drop whitespace from both ends. -/
def pyStrip (s : String) : String :=
  ⟨((s.data.dropWhile pyIsSpace).reverse.dropWhile pyIsSpace).reverse⟩

/-- Split a character list at every occurrence of `sep` (Python
`str.split(sep)` with a one-character separator: empty pieces are kept). -/
def splitChars (sep : Char) : List Char → List (List Char)
  | [] => [[]]
  | c :: cs =>
      let r := splitChars sep cs
      if c == sep then [] :: r
      else
        match r with
        | [] => [[c]]
        | g :: gs => (c :: g) :: gs

/-- Python `s.split(sep)` for a one-character separator. -/
def pySplitChar (sep : Char) (s : String) : List String :=
  (splitChars sep s.data).map (fun cs => ⟨cs⟩)

/-- Split a character list at every character satisfying `p`. -/
def splitByP (p : Char → Bool) : List Char → List (List Char)
  | [] => [[]]
  | c :: cs =>
      let r := splitByP p cs
      if p c then [] :: r
      else
        match r with
        | [] => [[c]]
        | g :: gs => (c :: g) :: gs

/-- Python `str.split()` with no argument: split on whitespace runs
(any whitespace character), discarding empty pieces. -/
def pySplitWs (s : String) : List String :=
  ((splitByP pyIsSpace s.data).map (fun cs => ⟨cs⟩)).filter (fun t => t ≠ "")

/-- Lower-case one character (ASCII range, as the domains involved are). -/
def pyLowerChar (c : Char) : Char :=
  if 'A' ≤ c ∧ c ≤ 'Z' then Char.ofNat (c.toNat + 32) else c

/-- Python `str.lower()` (ASCII range). -/
def pyLower (s : String) : String := ⟨s.data.map pyLowerChar⟩

/-- Python `s.startswith(pre)`. -/
def pyStartsWith (s pre : String) : Bool := pre.data.isPrefixOf s.data

/-- `sep.join(xs)` (Python `str.join`). -/
def strIntercalate (sep : String) : List String → String
  | [] => ""
  | [x] => x
  | x :: xs => x ++ sep ++ strIntercalate sep xs

/-- Concatenate a list of strings. -/
def strJoin (xs : List String) : String := xs.foldl (fun a b => a ++ b) ""

/-- Boolean lexicographic order on character lists (by code point, as Python
compares strings). -/
def lexLe : List Char → List Char → Bool
  | [], _ => true
  | _ :: _, [] => false
  | a :: as, b :: bs => if a == b then lexLe as bs else decide (a < b)

/-- The string order used for `sorted(...)`. -/
def strLe (a b : String) : Prop := lexLe a.data b.data = true

instance strLe.dec : DecidableRel strLe :=
  fun a b => inferInstanceAs (Decidable (lexLe a.data b.data = true))

/-- Membership-checked insertion: the effect of Python `set.add` on a
duplicate-free list representation of a set. -/
def setInsert (xs : List String) (d : String) : List String :=
  if d ∈ xs then xs else xs ++ [d]

/-- Python `set` union (`|=`) on the list representation. -/
def setUnion (xs ys : List String) : List String := ys.foldl setInsert xs

/-- Python `set` difference (`-=`) on the list representation. -/
def setMinus (xs ys : List String) : List String := xs.filter (fun d => d ∉ ys)

/-- The declared kind of a schema option (`type` field in `CONFIG_SCHEMA`). -/
inductive SType where
  | bool
  | int
  | list
  deriving DecidableEq, Repr

/-- One entry of `CONFIG_SCHEMA`: kind, default, optional bounds, restart flag. -/
structure OptSchema where
  type : SType
  default : Value
  omin : Option Int := none
  omax : Option Int := none
  restart_required : Bool := false
  deriving DecidableEq, Repr

/-- `CONFIG_SCHEMA` from `config_gen.py`, in source (insertion) order. -/
def CONFIG_SCHEMA : PDict OptSchema :=
  [ ("custom_config", { type := .bool, default := .vBool false }),
    ("access_control", { type := .list, default := .vList ["127.0.0.0/8", "10.0.0.0/8", "172.16.0.0/12", "192.168.0.0/16"] }),
    ("num_threads", { type := .int, default := .vInt 2, omin := some 1, omax := some 16, restart_required := true }),
    ("prefetch", { type := .bool, default := .vBool true }),
    ("fast_server_permil", { type := .int, default := .vInt 500, omin := some 0, omax := some 1000 }),
    ("fast_server_num", { type := .int, default := .vInt 5, omin := some 1, omax := some 20 }),
    ("prefer_ip4", { type := .bool, default := .vBool true }),
    ("do_ip4", { type := .bool, default := .vBool true }),
    ("do_ip6", { type := .bool, default := .vBool true }),
    ("cache_min_ttl", { type := .int, default := .vInt 60, omin := some 0, omax := some 86400 }),
    ("cache_max_ttl", { type := .int, default := .vInt 86400, omin := some 60, omax := some 604800 }),
    ("enable_dnssec", { type := .bool, default := .vBool true }),
    ("qname_minimisation", { type := .bool, default := .vBool true }),
    ("hide_identity", { type := .bool, default := .vBool true }),
    ("hide_version", { type := .bool, default := .vBool true }),
    ("forward_servers", { type := .list, default := .vList [] }),
    ("forward_tls", { type := .bool, default := .vBool false }),
    ("verbosity", { type := .int, default := .vInt 1, omin := some 0, omax := some 5 }),
    ("log_queries", { type := .bool, default := .vBool false }) ]

/-- `_defaults()`: a dict of all schema defaults, in schema order. -/
def defaultsDict : Dict :=
  CONFIG_SCHEMA.map (fun p => (p.1, p.2.default))

/-- The errors `validate_config` produces for one schema entry whose key is
present in the candidate with value `val`. -/
def entryErrors (key : String) (sch : OptSchema) (val : Value) : List String :=
  match sch.type with
  | .bool =>
      if pyIsInstBool val then []
      else [key ++ ": expected bool, got " ++ typeName val]
  | .int =>
      if !pyIsInstInt val || pyIsInstBool val then
        [key ++ ": expected int, got " ++ typeName val]
      else
        (match sch.omin, val with
          | some m, .vInt n =>
              if n < m then [key ++ ": minimum is " ++ toString m ++ ", got " ++ toString n]
              else []
          | _, _ => []) ++
        (match sch.omax, val with
          | some m, .vInt n =>
              if m < n then [key ++ ": maximum is " ++ toString m ++ ", got " ++ toString n]
              else []
          | _, _ => [])
  | .list =>
      if pyIsInstList val then []
      else [key ++ ": expected list, got " ++ typeName val]

/-- `validate_config`: iterate over the schema in order, skip keys absent from
the candidate, and collect per-key errors. -/
def validate_config (config : Dict) : List String :=
  CONFIG_SCHEMA.flatMap (fun p =>
    match dget config p.1 with
    | none => []
    | some v => entryErrors p.1 p.2 v)

example : validate_config defaultsDict = [] := by decide

example : validate_config [("num_threads", .vInt 99)] =
    ["num_threads: maximum is 16, got 99"] := by decide

example : validate_config [("prefetch", .vInt 1)] =
    ["prefetch: expected bool, got int"] := by decide

example : validate_config [("num_threads", .vBool true)] =
    ["num_threads: expected int, got bool"] := by decide

/-- `"yes" if val else "no"` (`_bool_to_yesno`), applied to a raw config value
exactly as the source does (truthiness, not a bool check). -/
def pyBoolToYesno (val : Value) : String := if truthy val then "yes" else "no"

/-- Python `str(...)` / f-string interpolation of a value. -/
def pyStrV : Value → String
  | .vBool b => if b then "True" else "False"
  | .vInt n => toString n
  | .vStr s => s
  | .vList xs => "[" ++ String.intercalate ", " (xs.map (fun s => "'" ++ s ++ "'")) ++ "]"

/-- Python `for x in v`: lists iterate over their elements, strings over their
characters (as one-character strings); integers and booleans raise `TypeError`
(modelled as `none`). -/
def pyIterStrs : Value → Option (List String)
  | .vList xs => some xs
  | .vStr s => some (s.data.map (fun c => String.singleton c))
  | _ => none

/-- `QUERY_LOG_FILE` from `config_gen.py`. -/
def QUERY_LOG_FILE : String := "/data/unbound_queries.log"

/-- `BLOCKLIST_CONF` (the rendered blocklist policy file path). -/
def BLOCKLIST_CONF : String := "/etc/unbound/blocklist.conf"

/-- `LOCAL_RECORDS_CONF` path constant. -/
def LOCAL_RECORDS_CONF : String := "/etc/unbound/local_records.conf"

/-- The `config[...]` keys `generate_unbound_conf` reads with bracket access;
a candidate missing one of them makes the Python function raise `KeyError`
(modelled as a `none` result). -/
def renderRequiredKeys : List String :=
  ["do_ip4", "do_ip6", "prefer_ip4", "num_threads", "prefetch",
   "fast_server_permil", "fast_server_num", "cache_min_ttl", "cache_max_ttl",
   "qname_minimisation", "hide_identity", "hide_version", "verbosity", "log_queries"]

/-- Bracket access `config[k]` under the guard that the key is present
(the fallback value is never reached on the guarded paths). -/
def cfgV (config : Dict) (k : String) : Value := (dget config k).getD (.vStr "")

/-- `generate_unbound_conf`: the rendered `unbound.conf` text as a function of
the config dict.  A missing key read with `config[...]`, or a `TypeError` from
iterating a non-iterable `access_control`/`forward_servers` value, makes the
Python function raise; those outcomes are modelled as `none`.  The log-rotation
step in the same function touches only the query-log file on disk and never the
returned text, so it does not appear in the returned value. -/
def generate_unbound_conf (config : Dict) : Option String :=
  if !(renderRequiredKeys.all (fun k => (dget config k).isSome)) then none
  else do
    let log_file := if truthyO (dget config "log_queries") then QUERY_LOG_FILE else ""
    let accNetworks ← pyIterStrs ((dget config "access_control").getD (.vList []))
    let dnssecOn := truthyO (dget config "enable_dnssec")
    let vForward := (dget config "forward_servers").getD (.vList [])
    let forwardLines ←
      if truthy vForward then
        (pyIterStrs vForward).map (fun servers =>
          ["", "forward-zone:", "    name: \".\"",
           "    forward-tls-upstream: " ++ pyBoolToYesno ((dget config "forward_tls").getD (.vBool false))] ++
          servers.map (fun server => "    forward-addr: " ++ server))
      else some ([] : List String)
    let lines : List String :=
      [ "server:",
        "    # Daemon settings",
        "    do-daemonize: no",
        "    chroot: \"\"",
        "",
        "    # Network settings",
        "    interface: 0.0.0.0",
        "    port: 53",
        "    do-ip4: " ++ pyBoolToYesno (cfgV config "do_ip4"),
        "    do-ip6: " ++ pyBoolToYesno (cfgV config "do_ip6"),
        "    prefer-ip4: " ++ pyBoolToYesno (cfgV config "prefer_ip4"),
        "    do-udp: yes",
        "    do-tcp: yes",
        "    do-not-query-localhost: no",
        "",
        "    # Performance settings",
        "    num-threads: " ++ pyStrV (cfgV config "num_threads"),
        "    prefetch: " ++ pyBoolToYesno (cfgV config "prefetch"),
        "    fast-server-permil: " ++ pyStrV (cfgV config "fast_server_permil"),
        "    fast-server-num: " ++ pyStrV (cfgV config "fast_server_num"),
        "    msg-cache-slabs: 4",
        "    rrset-cache-slabs: 4",
        "    infra-cache-slabs: 4",
        "    key-cache-slabs: 4",
        "",
        "    # Cache settings",
        "    cache-min-ttl: " ++ pyStrV (cfgV config "cache_min_ttl"),
        "    cache-max-ttl: " ++ pyStrV (cfgV config "cache_max_ttl"),
        "",
        "    # Privacy settings",
        "    qname-minimisation: " ++ pyBoolToYesno (cfgV config "qname_minimisation"),
        "    hide-identity: " ++ pyBoolToYesno (cfgV config "hide_identity"),
        "    hide-version: " ++ pyBoolToYesno (cfgV config "hide_version"),
        "",
        "    # Root hints for recursive resolution",
        "    root-hints: \"/etc/unbound/root.hints\"",
        "",
        "    # Trust anchor for DNSSEC",
        "    auto-trust-anchor-file: \"/var/lib/unbound/root.key\"",
        "",
        "    # Hardening",
        "    harden-glue: yes",
        "    harden-dnssec-stripped: yes",
        "    harden-referral-path: yes",
        "",
        "    # Log settings",
        "    verbosity: " ++ pyStrV (cfgV config "verbosity"),
        "    logfile: \"" ++ log_file ++ "\"",
        "    log-queries: " ++ pyBoolToYesno (cfgV config "log_queries"),
        "    log-replies: " ++ pyBoolToYesno (cfgV config "log_queries"),
        "    log-servfail: yes",
        "",
        "    # Include blocklist and local records",
        "    include: \"" ++ BLOCKLIST_CONF ++ "\"",
        "    include: \"" ++ LOCAL_RECORDS_CONF ++ "\"" ] ++
      accNetworks.map (fun network => "    access-control: " ++ network ++ " allow") ++
      (if dnssecOn then
        ["", "    # DNSSEC validation", "    val-clean-additional: yes"]
      else
        ["", "    # DNSSEC validation disabled", "    module-config: \"iterator\""]) ++
      [ "",
        "remote-control:",
        "    control-enable: yes",
        "    control-interface: 127.0.0.1",
        "    server-key-file: \"/etc/unbound/unbound_server.key\"",
        "    server-cert-file: \"/etc/unbound/unbound_server.pem\"",
        "    control-key-file: \"/etc/unbound/unbound_control.key\"",
        "    control-cert-file: \"/etc/unbound/unbound_control.pem\"" ] ++
      forwardLines ++
      [""]
    pure (strIntercalate "\n" lines)

/-- The filesystem state the config pipeline reads and writes:
`/data/config.json` (the stored override document) and
`/etc/unbound/unbound.conf` (the live rendered artifact).
`none` means the file does not exist. -/
structure St where
  configFile : Option Dict
  unboundConf : Option String
  deriving DecidableEq

/-- `load_config`: schema defaults updated with the stored document
(defaults alone when the file is absent). -/
def load_config (st : St) : Dict :=
  dictUpdate defaultsDict (st.configFile.getD [])

/-- `save_config`: write the dict as `/data/config.json`. -/
def save_config (config : Dict) (st : St) : St :=
  { st with configFile := some config }

/-- `apply_config`'s returned dict: `ok`, `message` and, on the paths that set
it, `restart_required` (the validation-failure return carries no such key,
modelled as `none`). -/
structure ApplyResult where
  ok : Bool
  message : String
  restart_required : Option Bool
  deriving DecidableEq, Repr

/-- `apply_config`: validate, compute the restart flag, back up the live
artifact, persist the candidate, render and write the artifact, syntax-check
it, roll back on check failure, and otherwise reload.  The outcomes of the
external `unbound-checkconf` and `unbound-control reload` calls are passed in
as `checkOk`/`checkOutput` and `reloadOk`/`reloadMsg`.  The value is the final
state paired with the returned dict; `none` in place of the dict models the
uncaught exception Python raises when rendering fails (at that point the
candidate has been persisted but no artifact written). -/
def apply_config (checkOk : Bool) (checkOutput : String) (reloadOk : Bool)
    (reloadMsg : String) (st : St) (new_config : Dict) : St × Option ApplyResult :=
  let errors := validate_config new_config
  if errors ≠ [] then
    (st, some { ok := false, message := "Validation failed: " ++ strIntercalate "; " errors, restart_required := none })
  else
    let old_config := load_config st
    let restart_required := pyNeO (dget old_config "num_threads") (dget new_config "num_threads")
    let backup := st.unboundConf
    let st1 := save_config new_config st
    match generate_unbound_conf new_config with
    | none => (st1, none)
    | some content =>
      let st2 : St := { st1 with unboundConf := some content }
      if checkOk = false then
        let st3 : St := { st2 with unboundConf := some (backup.getD content) }
        let st4 := save_config old_config st3
        (st4, some { ok := false, message := "Config check failed: " ++ checkOutput, restart_required := none })
      else if reloadOk = false then
        let msg := "Config saved but reload failed: " ++ reloadMsg ++ (if restart_required then " (addon restart required for thread count change)" else "")
        (st2, some { ok := true, message := msg, restart_required := some restart_required })
      else
        let msg := if restart_required then "Configuration saved. Addon restart required for thread count change to take effect." else "Configuration applied successfully."
        (st2, some { ok := true, message := msg, restart_required := some restart_required })

example : (apply_config true "" true "" ⟨none, none⟩ defaultsDict).2 =
    some { ok := true, message := "Configuration applied successfully.", restart_required := some false } := by
  decide

example : (apply_config false "boom" true "" ⟨some [], some "OLD"⟩ defaultsDict).2 =
    some { ok := false, message := "Config check failed: boom", restart_required := none } := by
  decide

/-- `_BLOCKLIST_SKIP_DOMAINS` from `app.py`: well-known local/loopback
hostnames that are never accepted from a fetched list. -/
def BLOCKLIST_SKIP_DOMAINS : List String :=
  ["localhost", "localhost.localdomain", "local", "broadcasthost",
   "ip6-localhost", "ip6-loopback", "ip6-localnet",
   "ip6-mcastprefix", "ip6-allnodes", "ip6-allrouters", "ip6-allhosts"]

/-- The candidate domain one fetched line contributes, if any: the line is
stripped; empty and `#`-comment lines are skipped; otherwise it must have at
least two whitespace-delimited tokens with the first being `0.0.0.0` or
`127.0.0.1`; the second token, stripped and lower-cased, is contributed
unless empty or in the skip set.  Mirrors the loop body in
`_do_blocklist_refresh` (the Python locals `line`, `parts`, `domain` are
inlined). -/
def parseHostLine (line : String) : Option String :=
  if pyStrip line = "" then none
  else if pyStartsWith (pyStrip line) "#" then none
  else if 2 ≤ (pySplitWs (pyStrip line)).length ∧
      ((pySplitWs (pyStrip line)).headD "" = "0.0.0.0" ∨
       (pySplitWs (pyStrip line)).headD "" = "127.0.0.1") then
    if pyLower (pyStrip (((pySplitWs (pyStrip line))[1]?).getD "")) ≠ "" ∧
        pyLower (pyStrip (((pySplitWs (pyStrip line))[1]?).getD "")) ∉ BLOCKLIST_SKIP_DOMAINS then
      some (pyLower (pyStrip (((pySplitWs (pyStrip line))[1]?).getD "")))
    else none
  else none

/-- The effect of one fetched line on the accumulated per-source set. -/
def parseStep (acc : List String) (line : String) : List String :=
  match parseHostLine line with
  | some d => setInsert acc d
  | none => acc

/-- The per-source domain set parsed from one fetched body
(`url_domains` in the source), as a duplicate-free list. -/
def parseBody (body : String) : List String :=
  (pySplitChar '\n' body).foldl parseStep []

/-- One entry of the per-source status document: domain count, refresh
timestamp, last error (or `none`). -/
structure StatusEntry where
  domains : Nat
  last_refresh : Nat
  error : Option String
  deriving DecidableEq, Repr

/-- The outcome of `curl`-fetching one source: success with a body, a
non-zero exit code with stderr text, or a raised exception (timeout). -/
inductive FetchResult where
  | ok (stdout : String)
  | fail (stderr : String)
  | exc (msg : String)
  deriving DecidableEq

/-- What `_do_blocklist_refresh` produces: the final status document, the
aggregate surviving whitelist subtraction (as a duplicate-free list), the
rendered policy-file text, and the returned dict's fields
(`domains_blocked`, `errors`, `reload_ok`). -/
structure RefreshOut where
  status : PDict StatusEntry
  blockedSet : List String
  confText : String
  domains_blocked : Nat
  errors : List (String × String)
  reload_ok : Bool

/-- The loop body of `_do_blocklist_refresh` for one source URL, acting on
(aggregate, error list, status document). -/
def refreshStep (fetch : String → FetchResult) (now : Nat)
    (acc : List String × List (String × String) × PDict StatusEntry)
    (url : String) : List String × List (String × String) × PDict StatusEntry :=
  match fetch url with
  | .ok body =>
      let ud := parseBody body
      (setUnion acc.1 ud, acc.2.1, dset acc.2.2 url ⟨ud.length, now, none⟩)
  | .fail stderr =>
      (acc.1, acc.2.1 ++ [(url, stderr)], dset acc.2.2 url ⟨0, now, some (pyStrip stderr)⟩)
  | .exc msg =>
      (acc.1, acc.2.1 ++ [(url, msg)], dset acc.2.2 url ⟨0, now, some msg⟩)

/-- `_do_blocklist_refresh`: fetch every configured source (continuing past
failures), union the per-source domain sets, record per-source status,
subtract the lower-cased whitelist, render one sorted policy directive per
surviving domain, and reload.  Fetch outcomes, the clock and the reload
outcome are passed in. -/
def do_blocklist_refresh (blocklists : List String) (whitelistRaw : List String)
    (status0 : PDict StatusEntry) (fetch : String → FetchResult) (now : Nat)
    (reloadOk : Bool) : RefreshOut :=
  let whitelist := (whitelistRaw.map pyLower).foldl setInsert []
  let res := blocklists.foldl (refreshStep fetch now) ([], [], status0)
  let all_domains := setMinus res.1 whitelist
  let confText := strJoin
    ((List.insertionSort strLe all_domains).map (fun domain => "local-zone: \"" ++ domain ++ ".\" always_refuse\n"))
  { status := res.2.2, blockedSet := all_domains, confText := confText,
    domains_blocked := all_domains.length, errors := res.2.1, reload_ok := reloadOk }

example : parseBody "0.0.0.0 x.com\n# c\n0.0.0.0 localhost\n127.0.0.1 Y.com junk\n0.0.0.0 x.com" =
    ["x.com", "y.com"] := by decide

/-- The key/value pair one line of control-channel output contributes:
lines containing `=` are split at the first `=` (Python `split("=", 1)`),
both halves stripped; lines without `=` contribute nothing. -/
def statLineKV (line : String) : Option (String × String) :=
  if '=' ∈ line.data then
    some (pyStrip ⟨line.data.takeWhile (fun c => c ≠ '=')⟩,
          pyStrip ⟨(line.data.dropWhile (fun c => c ≠ '=')).tail⟩)
  else none

/-- The loop body of `parse_stats` for one line. -/
def statStep (stats : PDict String) (line : String) : PDict String :=
  match statLineKV line with
  | some kv => dset stats kv.1 kv.2
  | none => stats

/-- `parse_stats`: split the stripped control-channel output line by line;
every line containing `=` contributes `key.strip() -> value.strip()` split at
the first `=`; later duplicates overwrite earlier ones. -/
def parse_stats (raw_stats : String) : PDict String :=
  (pySplitChar '\n' (pyStrip raw_stats)).foldl statStep []

example : parse_stats "a.b=1\nc.d=2\n" = [("a.b", "1"), ("c.d", "2")] := by decide

example : parse_stats "x = 1\nnoequals\nx=2" = [("x", "2")] := by decide

example : parse_stats "a=b=c" = [("a", "b=c")] := by decide

/-- Accumulating decimal digit parser (`none` on a non-digit character). -/
def digitsToNatAux (acc : Nat) : List Char → Option Nat
  | [] => some acc
  | c :: cs => if c.isDigit then digitsToNatAux (acc * 10 + (c.toNat - 48)) cs else none

/-- The unsigned decimal part of `float()`: integer digits, an optional dot,
and fractional digits. -/
def pyFloatCore (t : List Char) : Option ℚ :=
  let ip := t.takeWhile (fun c => c ≠ '.')
  let rest := t.dropWhile (fun c => c ≠ '.')
  match rest with
  | [] => if ip.isEmpty then none else (digitsToNatAux 0 ip).map (fun n => (n : ℚ))
  | _ :: fp =>
      if ip.isEmpty && fp.isEmpty then none
      else
        match digitsToNatAux 0 ip, digitsToNatAux 0 fp with
        | some a, some b => some ((a : ℚ) + (b : ℚ) / ((10 : ℚ) ^ fp.length))
        | _, _ => none

/-- `float(s)` for the plain decimal forms the control channel produces
(optional sign, integer digits, optional fractional part); anything else
raises `ValueError` in Python, modelled as `none`.  Exact rational
arithmetic stands in for IEEE doubles; the properties proved below depend
only on exact zero tests. -/
def pyFloat (s : String) : Option ℚ :=
  match (pyStrip s).data with
  | '-' :: r => (pyFloatCore r).map (fun q => -q)
  | '+' :: r => pyFloatCore r
  | t => pyFloatCore t

/-- Round to the nearest integer, ties to even (Python `round`). -/
def roundHalfEven (q : ℚ) : ℤ :=
  let f := ⌊q⌋
  let r := q - f
  if r < 1/2 then f
  else if 1/2 < r then f + 1
  else if f % 2 = 0 then f else f + 1

/-- Python `round(x, 1)`, exactly on rationals. -/
def pyRound1 (x : ℚ) : ℚ := (roundHalfEven (x * 10) : ℚ) / 10

/-- `float(stats.get(key, 0))`: the integer default `0` when the key is
absent, otherwise `float()` of the stored string. -/
def statF (stats : PDict String) (k : String) : Option ℚ :=
  match dget stats k with
  | none => some 0
  | some s => pyFloat s

/-- The two guarded derived metrics in the `api_stats` response. -/
structure ApiMetrics where
  cache_hit_rate : ℚ
  queries_per_sec : ℚ
  deriving DecidableEq, Repr

/-- The `cache_hit_rate` and `queries_per_sec` fields of the `api_stats`
response: `hit_rate = cache_hits / total_queries * 100` when
`total_queries > 0` else `0`, reported rounded to one decimal;
`queries_per_sec = round(total_queries / uptime, 1)` when `uptime > 0`
else `0`.  The conversions happen in source order, so a `none` (a raised
`ValueError`) from any of the referenced values means no response is
produced. -/
def api_stats_metrics (stats : PDict String) : Option ApiMetrics := do
  let total_queries ← statF stats "total.num.queries"
  let cache_hits ← statF stats "total.num.cachehits"
  let _cache_miss ← statF stats "total.num.cachemiss"
  let hit_rate := if 0 < total_queries then cache_hits / total_queries * 100 else 0
  let uptime ← statF stats "time.up"
  let queries_per_sec := if 0 < uptime then pyRound1 (total_queries / uptime) else 0
  pure ⟨pyRound1 hit_rate, queries_per_sec⟩

example : api_stats_metrics [("total.num.queries", "100"), ("total.num.cachehits", "25"), ("time.up", "50")] =
    some ⟨25, 2⟩ := by
  simp +decide [api_stats_metrics, statF, pyFloat, pyFloatCore, pyStrip, pyIsSpace, dget, digitsToNatAux]
  norm_num [pyRound1, roundHalfEven]

example : api_stats_metrics [] = some ⟨0, 0⟩ := by
  simp +decide [api_stats_metrics, statF, pyFloat, pyFloatCore, dget]
  norm_num [pyRound1, roundHalfEven]

example : pyFloat "12.5" = some (25 / 2) := by
  simp +decide [pyFloat, pyFloatCore, pyStrip, pyIsSpace, digitsToNatAux]
  norm_num

/-! ### Dictionary lemmas -/

theorem dget_dset_self {β : Type} (d : PDict β) (k : String) (v : β) :
    dget (dset d k v) k = some v := by
  induction d with
  | nil => simp [dget, dset]
  | cons p d ih =>
      by_cases h : p.1 = k <;> simp [dget, dset, h, ih]

theorem dget_dset_ne {β : Type} (d : PDict β) (k k' : String) (v : β) (h : k' ≠ k) :
    dget (dset d k v) k' = dget d k' := by
  induction d with
  | nil => simp [dget, dset, Ne.symm h]
  | cons p d ih =>
      by_cases hp : p.1 = k
      · simp [dget, dset, hp, Ne.symm h]
      · simp [dget, dset, hp, ih]

theorem dget_append {β : Type} (d₁ d₂ : PDict β) (k : String) :
    dget (d₁ ++ d₂) k = (dget d₁ k).or (dget d₂ k) := by
  induction d₁ with
  | nil => simp [dget]
  | cons p d ih =>
      by_cases h : p.1 = k <;> simp [dget, h, ih]

theorem dget_map_update {β : Type} (b u : PDict β) (k : String) :
    dget (b.map (fun p => match dget u p.1 with
      | some v => (p.1, v)
      | none => p)) k =
      match dget b k with
      | some w => some ((dget u k).getD w)
      | none => none := by
  induction b with
  | nil => simp [dget]
  | cons p b ih =>
      by_cases h : p.1 = k
      · subst h
        cases hu : dget u p.1 <;> simp [dget, hu, ih]
      · cases hu : dget u p.1 <;> simp [dget, hu, h, ih]

theorem dget_filter_isNone {β : Type} (b u : PDict β) (k : String) :
    dget (u.filter (fun p => (dget b p.1).isNone)) k =
      if (dget b k).isNone then dget u k else none := by
  induction u with
  | nil => simp [dget]
  | cons p u ih =>
      by_cases hk : p.1 = k
      · subst hk
        cases hq : (dget b p.1).isNone <;> simp [dget, hq, ih]
      · cases hq : (dget b p.1).isNone <;> simp [dget, hq, hk, ih]

theorem dget_dictUpdate {β : Type} (b u : PDict β) (k : String) :
    dget (dictUpdate b u) k = (dget u k).or (dget b k) := by
  unfold dictUpdate
  rw [dget_append, dget_map_update, dget_filter_isNone]
  cases hb : dget b k
  · simp
  · cases hu : dget u k <;> simp [Option.or]

/-! ### Config pipeline lemmas -/

/-- The restart flag `apply_config` computes: `old.get("num_threads") !=
new.get("num_threads")` against the currently loaded configuration. -/
def restartFlag (st : St) (c : Dict) : Bool :=
  pyNeO (dget (load_config st) "num_threads") (dget c "num_threads")

theorem dget_load (st : St) (k : String) :
    dget (load_config st) k = (dget (st.configFile.getD []) k).or (dget defaultsDict k) := by
  unfold load_config
  exact dget_dictUpdate _ _ _

theorem apply_config_of_invalid (ck : Bool) (cout : String) (ro : Bool) (rm : String)
    (st : St) (c : Dict) (h : validate_config c ≠ []) :
    apply_config ck cout ro rm st c =
      (st, some ⟨false, "Validation failed: " ++ strIntercalate "; " (validate_config c), none⟩) := by
  simp [apply_config, h]

theorem apply_config_of_render_exc (ck : Bool) (cout : String) (ro : Bool) (rm : String)
    (st : St) (c : Dict) (hv : validate_config c = [])
    (hg : generate_unbound_conf c = none) :
    apply_config ck cout ro rm st c = ({ st with configFile := some c }, none) := by
  simp [apply_config, hv, hg, save_config]

theorem apply_config_of_checkfail (cout : String) (ro : Bool) (rm : String)
    (st : St) (c : Dict) (content : String) (hv : validate_config c = [])
    (hg : generate_unbound_conf c = some content) :
    apply_config false cout ro rm st c =
      ({ configFile := some (load_config st), unboundConf := some (st.unboundConf.getD content) },
       some ⟨false, "Config check failed: " ++ cout, none⟩) := by
  simp [apply_config, hv, hg, save_config]

theorem apply_config_of_reload_fail (cout : String) (rm : String)
    (st : St) (c : Dict) (content : String) (hv : validate_config c = [])
    (hg : generate_unbound_conf c = some content) :
    apply_config true cout false rm st c =
      ({ configFile := some c, unboundConf := some content },
       some ⟨true,
         "Config saved but reload failed: " ++ rm ++
           (if restartFlag st c then " (addon restart required for thread count change)" else ""),
         some (restartFlag st c)⟩) := by
  simp [apply_config, hv, hg, save_config, restartFlag]

theorem apply_config_of_success (cout : String) (rm : String)
    (st : St) (c : Dict) (content : String) (hv : validate_config c = [])
    (hg : generate_unbound_conf c = some content) :
    apply_config true cout true rm st c =
      ({ configFile := some c, unboundConf := some content },
       some ⟨true,
         if restartFlag st c then "Configuration saved. Addon restart required for thread count change to take effect."
         else "Configuration applied successfully.",
         some (restartFlag st c)⟩) := by
  simp [apply_config, hv, hg, save_config, restartFlag]

theorem option_or_absorb {β : Type} (x d : Option β) : ((x.or d).or d) = x.or d := by
  cases x <;> cases d <;> rfl

/-- Loading after the rollback write (`save_config old_config`) gives the
same configuration as before the apply. -/
theorem dget_load_after_rollback (st : St) (u : Option String) (k : String) :
    dget (load_config { configFile := some (load_config st), unboundConf := u }) k =
      dget (load_config st) k := by
  have h := dget_load st k
  rw [dget_load]
  simp only [Option.getD]
  rw [h]
  exact option_or_absorb _ _

theorem pyEq_refl (v : Value) : pyEq v v = true := by
  cases v <;> simp [pyEq]

theorem pyNeO_self (x : Option Value) : pyNeO x x = false := by
  cases x with
  | none => rfl
  | some v => simp [pyNeO, pyEq_refl]

/-! ### Claim C1 (corrected) -/

/-- C1 counterexample: with a pre-apply stored override document that is the
empty dict, a candidate that passes validation but fails the external syntax
check leaves the stored override document different from its pre-apply value
(the rollback writes back the merged configuration, not the original
document), refuting the claim that both artifacts equal their pre-apply
values. -/
theorem C1_counterexample :
    validate_config defaultsDict = [] ∧
    (apply_config false "forced failure" true "" ⟨some [], some "OLD"⟩ defaultsDict).2 =
      some ⟨false, "Config check failed: forced failure", none⟩ ∧
    (apply_config false "forced failure" true "" ⟨some [], some "OLD"⟩ defaultsDict).1.configFile ≠
      some [] := by
  exact ⟨by decide, by decide, by decide⟩

/-- C1 (amended): when a candidate passes validation and the external syntax
check fails, `apply_config` returns `accepted = false` with a message carrying
the checker output, `load_config` afterwards returns the pre-apply
configuration (key by key), the stored override document is rewritten to the
pre-apply *merged* configuration, and the live artifact is restored to its
pre-apply content whenever it existed before the apply (when none existed, the
rejected artifact remains on disk). -/
theorem C1_syntax_fail_rollback :
    ∀ (cout : String) (ro : Bool) (rm : String) (st : St) (c : Dict) (st' : St) (r : ApplyResult),
      apply_config false cout ro rm st c = (st', some r) →
      validate_config c = [] →
      r.ok = false ∧
      r.message = "Config check failed: " ++ cout ∧
      st'.configFile = some (load_config st) ∧
      (∀ k, dget (load_config st') k = dget (load_config st) k) ∧
      (∀ b, st.unboundConf = some b → st'.unboundConf = some b) ∧
      (st.unboundConf = none → st'.unboundConf = generate_unbound_conf c) := by
  intro cout ro rm st c st' r happ hv
  cases hg : generate_unbound_conf c with
  | none =>
      rw [apply_config_of_render_exc false cout ro rm st c hv hg] at happ
      simp at happ
  | some content =>
      rw [apply_config_of_checkfail cout ro rm st c content hv hg] at happ
      simp only [Prod.mk.injEq, Option.some.injEq] at happ
      obtain ⟨hst, hr⟩ := happ
      subst hst
      refine ⟨by rw [← hr], by rw [← hr], rfl, ?_, ?_, ?_⟩
      · intro k
        exact dget_load_after_rollback st _ k
      · intro b hb
        simp [hb]
      · intro hb
        simp [hb, hg]

/-- Witness for C1 (amended) at a concrete pre-state and candidate. -/
theorem C1_syntax_fail_rollback_witness :
    validate_config defaultsDict = [] ∧
    dget (load_config (apply_config false "boom" true "" ⟨some [], some "OLD"⟩ defaultsDict).1)
        "num_threads" =
      dget (load_config ⟨some [], some "OLD"⟩) "num_threads" ∧
    (apply_config false "boom" true "" ⟨some [], some "OLD"⟩ defaultsDict).1.unboundConf =
      some "OLD" := by
  have h := C1_syntax_fail_rollback "boom" true "" ⟨some [], some "OLD"⟩ defaultsDict
    (apply_config false "boom" true "" ⟨some [], some "OLD"⟩ defaultsDict).1
    ⟨false, "Config check failed: boom", none⟩ (by decide) (by decide)
  exact ⟨by decide, h.2.2.2.1 "num_threads", h.2.2.2.2.1 "OLD" rfl⟩

/-! ### Claim C2 -/

/-- C2: `load_config` merges the stored override document onto the schema
defaults (stored keys win, keys outside the schema are preserved); for a
complete candidate (a value for exactly the schema keys), an accepted
`apply_config` makes a subsequent `load_config` return exactly the candidate,
and a rejected one leaves `load_config` unchanged. -/
theorem C2_apply_load_roundtrip :
    (∀ st k, dget (load_config st) k = (dget (st.configFile.getD []) k).or (dget defaultsDict k)) ∧
    (∀ (ck : Bool) (cout : String) (ro : Bool) (rm : String) (st : St) (c : Dict) (st' : St) (r : ApplyResult),
      apply_config ck cout ro rm st c = (st', some r) →
      (∀ k, (dget c k).isSome ↔ (dget defaultsDict k).isSome) →
      ((r.ok = true → ∀ k, dget (load_config st') k = dget c k) ∧
       (r.ok = false → ∀ k, dget (load_config st') k = dget (load_config st) k))) := by
  constructor
  · exact dget_load
  · intro ck cout ro rm st c st' r happ hcomp
    by_cases hv : validate_config c = []
    · cases hg : generate_unbound_conf c with
      | none =>
          rw [apply_config_of_render_exc ck cout ro rm st c hv hg] at happ
          simp at happ
      | some content =>
          have accepted : ∀ (hst : st' = ⟨some c, some content⟩), ∀ k, dget (load_config st') k = dget c k := by
            intro hst k
            subst hst
            rw [dget_load]
            simp only [Option.getD]
            cases hc : dget c k with
            | some v => rfl
            | none =>
                have h2 := (hcomp k)
                rw [hc] at h2
                cases hd : dget defaultsDict k with
                | none => rfl
                | some w => rw [hd] at h2; simp at h2
          cases ck with
          | false =>
              rw [apply_config_of_checkfail cout ro rm st c content hv hg] at happ
              simp only [Prod.mk.injEq, Option.some.injEq] at happ
              obtain ⟨hst, hr⟩ := happ
              subst hst
              constructor
              · intro hok
                rw [← hr] at hok
                simp at hok
              · intro _ k
                exact dget_load_after_rollback st _ k
          | true =>
              cases ro with
              | false =>
                  rw [apply_config_of_reload_fail cout rm st c content hv hg] at happ
                  simp only [Prod.mk.injEq, Option.some.injEq] at happ
                  obtain ⟨hst, hr⟩ := happ
                  constructor
                  · intro _
                    exact accepted hst.symm
                  · intro hok
                    rw [← hr] at hok
                    simp at hok
              | true =>
                  rw [apply_config_of_success cout rm st c content hv hg] at happ
                  simp only [Prod.mk.injEq, Option.some.injEq] at happ
                  obtain ⟨hst, hr⟩ := happ
                  constructor
                  · intro _
                    exact accepted hst.symm
                  · intro hok
                    rw [← hr] at hok
                    simp at hok
    · rw [apply_config_of_invalid ck cout ro rm st c hv] at happ
      simp only [Prod.mk.injEq, Option.some.injEq] at happ
      obtain ⟨hst, hr⟩ := happ
      subst hst
      constructor
      · intro hok
        rw [← hr] at hok
        simp at hok
      · intro _ _
        rfl

/-- Witness for C2 at a concrete accepted apply. -/
theorem C2_apply_load_roundtrip_witness :
    dget (load_config (apply_config true "" true "" ⟨none, none⟩ defaultsDict).1) "num_threads" =
      dget defaultsDict "num_threads" := by
  have hs : (generate_unbound_conf defaultsDict).isSome := by decide
  have hg : generate_unbound_conf defaultsDict = some ((generate_unbound_conf defaultsDict).get hs) :=
    (Option.some_get hs).symm
  have happ := apply_config_of_success "" "" ⟨none, none⟩ defaultsDict
    ((generate_unbound_conf defaultsDict).get hs) (by decide) hg
  have h := C2_apply_load_roundtrip.2 true "" true "" ⟨none, none⟩ defaultsDict _ _ happ
    (fun k => Iff.rfl)
  rw [happ]
  exact h.1 rfl "num_threads"

/-! ### Claim C5 -/

/-- C5: on every apply that returns `accepted = true`, the returned
`restart_required` flag is exactly whether `num_threads` (the restart-flagged
option) differs between the currently loaded configuration and the candidate;
consequently, after an accepted apply of a candidate carrying `num_threads`,
a second accepted apply returns `restart_required = false` when its candidate
agrees on `num_threads` and `true` when it differs. -/
theorem C5_restart_required_flag :
    ∀ (ck : Bool) (cout : String) (ro : Bool) (rm : String) (st : St) (c : Dict) (st' : St) (r : ApplyResult),
      apply_config ck cout ro rm st c = (st', some r) →
      r.ok = true →
      (r.restart_required = some (pyNeO (dget (load_config st) "num_threads") (dget c "num_threads")) ∧
       (∀ (ck₂ : Bool) (cout₂ : String) (ro₂ : Bool) (rm₂ : String) (c₂ : Dict) (st₂ : St) (r₂ : ApplyResult),
          apply_config ck₂ cout₂ ro₂ rm₂ st' c₂ = (st₂, some r₂) →
          r₂.ok = true →
          (dget c "num_threads").isSome →
          ((dget c₂ "num_threads" = dget c "num_threads" → r₂.restart_required = some false) ∧
           (pyNeO (dget c "num_threads") (dget c₂ "num_threads") = true →
              r₂.restart_required = some true))) ∧
       (∀ a b : Int, pyNeO (some (.vInt a)) (some (.vInt b)) = true ↔ a ≠ b)) := by
  intro ck cout ro rm st c st' r happ hok
  by_cases hv : validate_config c = []
  · cases hg : generate_unbound_conf c with
    | none =>
        rw [apply_config_of_render_exc ck cout ro rm st c hv hg] at happ
        simp at happ
    | some content =>
        cases ck with
        | false =>
            rw [apply_config_of_checkfail cout ro rm st c content hv hg] at happ
            simp only [Prod.mk.injEq, Option.some.injEq] at happ
            rw [← happ.2] at hok
            simp at hok
        | true =>
            have main : st' = ⟨some c, some content⟩ →
                r.restart_required = some (restartFlag st c) →
                r.restart_required = some (pyNeO (dget (load_config st) "num_threads") (dget c "num_threads")) ∧
                (∀ (ck₂ : Bool) (cout₂ : String) (ro₂ : Bool) (rm₂ : String) (c₂ : Dict) (st₂ : St) (r₂ : ApplyResult),
                  apply_config ck₂ cout₂ ro₂ rm₂ st' c₂ = (st₂, some r₂) →
                  r₂.ok = true →
                  (dget c "num_threads").isSome →
                  ((dget c₂ "num_threads" = dget c "num_threads" → r₂.restart_required = some false) ∧
                   (pyNeO (dget c "num_threads") (dget c₂ "num_threads") = true →
                      r₂.restart_required = some true))) ∧
                (∀ a b : Int, pyNeO (some (.vInt a)) (some (.vInt b)) = true ↔ a ≠ b) := by
              intro hst hrr
              refine ⟨hrr, ?_, fun a b => by simp [pyNeO, pyEq]⟩
              intro ck₂ cout₂ ro₂ rm₂ c₂ st₂ r₂ happ₂ hok₂ hsome
              have hload : dget (load_config st') "num_threads" = dget c "num_threads" := by
                subst hst
                rw [dget_load]
                simp only [Option.getD]
                cases hc : dget c "num_threads" with
                | some v => rfl
                | none => rw [hc] at hsome; simp at hsome
              by_cases hv₂ : validate_config c₂ = []
              · cases hg₂ : generate_unbound_conf c₂ with
                | none =>
                    rw [apply_config_of_render_exc ck₂ cout₂ ro₂ rm₂ st' c₂ hv₂ hg₂] at happ₂
                    simp at happ₂
                | some content₂ =>
                    cases ck₂ with
                    | false =>
                        rw [apply_config_of_checkfail cout₂ ro₂ rm₂ st' c₂ content₂ hv₂ hg₂] at happ₂
                        simp only [Prod.mk.injEq, Option.some.injEq] at happ₂
                        rw [← happ₂.2] at hok₂
                        simp at hok₂
                    | true =>
                        have hrr₂ : r₂.restart_required = some (restartFlag st' c₂) := by
                          cases ro₂ with
                          | false =>
                              rw [apply_config_of_reload_fail cout₂ rm₂ st' c₂ content₂ hv₂ hg₂] at happ₂
                              simp only [Prod.mk.injEq, Option.some.injEq] at happ₂
                              rw [← happ₂.2]
                          | true =>
                              rw [apply_config_of_success cout₂ rm₂ st' c₂ content₂ hv₂ hg₂] at happ₂
                              simp only [Prod.mk.injEq, Option.some.injEq] at happ₂
                              rw [← happ₂.2]
                        have hflag : restartFlag st' c₂ = pyNeO (dget c "num_threads") (dget c₂ "num_threads") := by
                          unfold restartFlag
                          rw [hload]
                        constructor
                        · intro heq
                          rw [hrr₂, hflag, heq, pyNeO_self]
                        · intro hne
                          rw [hrr₂, hflag, hne]
              · rw [apply_config_of_invalid ck₂ cout₂ ro₂ rm₂ st' c₂ hv₂] at happ₂
                simp only [Prod.mk.injEq, Option.some.injEq] at happ₂
                rw [← happ₂.2] at hok₂
                simp at hok₂
            cases ro with
            | false =>
                rw [apply_config_of_reload_fail cout rm st c content hv hg] at happ
                simp only [Prod.mk.injEq, Option.some.injEq] at happ
                exact main happ.1.symm (by rw [← happ.2])
            | true =>
                rw [apply_config_of_success cout rm st c content hv hg] at happ
                simp only [Prod.mk.injEq, Option.some.injEq] at happ
                exact main happ.1.symm (by rw [← happ.2])
  · rw [apply_config_of_invalid ck cout ro rm st c hv] at happ
    simp only [Prod.mk.injEq, Option.some.injEq] at happ
    rw [← happ.2] at hok
    simp at hok

/-- Witness for C5: a first accepted apply of the defaults, then an accepted
apply changing only `num_threads`, reports `restart_required = true`. -/
theorem C5_restart_required_flag_witness :
    pyNeO (dget defaultsDict "num_threads")
        (dget (dset defaultsDict "num_threads" (Value.vInt 4)) "num_threads") = true ∧
    ((apply_config true "" true ""
        (apply_config true "" true "" ⟨none, none⟩ defaultsDict).1
        (dset defaultsDict "num_threads" (Value.vInt 4))).2.map ApplyResult.restart_required) =
      some (some true) := by
  have hs : (generate_unbound_conf defaultsDict).isSome := by decide
  have hg : generate_unbound_conf defaultsDict = some ((generate_unbound_conf defaultsDict).get hs) :=
    (Option.some_get hs).symm
  have happ := apply_config_of_success "" "" ⟨none, none⟩ defaultsDict
    ((generate_unbound_conf defaultsDict).get hs) (by decide) hg
  have h := C5_restart_required_flag true "" true "" ⟨none, none⟩ defaultsDict _ _ happ rfl
  have hs₂ : (generate_unbound_conf (dset defaultsDict "num_threads" (Value.vInt 4))).isSome := by
    decide
  have hg₂ : generate_unbound_conf (dset defaultsDict "num_threads" (Value.vInt 4)) =
      some ((generate_unbound_conf (dset defaultsDict "num_threads" (Value.vInt 4))).get hs₂) :=
    (Option.some_get hs₂).symm
  have happ₂ := apply_config_of_success "" ""
    ⟨some defaultsDict, some ((generate_unbound_conf defaultsDict).get hs)⟩
    (dset defaultsDict "num_threads" (Value.vInt 4))
    ((generate_unbound_conf (dset defaultsDict "num_threads" (Value.vInt 4))).get hs₂) (by decide) hg₂
  have h2 := h.2.1 true "" true "" (dset defaultsDict "num_threads" (Value.vInt 4)) _ _ happ₂ rfl
    (by decide)
  have h3 := h2.2 (by decide)
  have e1 : (apply_config true "" true "" ⟨none, none⟩ defaultsDict).1 =
      ⟨some defaultsDict, some ((generate_unbound_conf defaultsDict).get hs)⟩ := by rw [happ]
  refine ⟨by decide, ?_⟩
  rw [e1, happ₂]
  simp only [Option.map]
  have h4 := Option.some.inj h3
  rw [h4]

/-! ### Claims C4 and C10: validation -/

/-- Semantic acceptability of a value for a schema entry: the kind matches
(`bool`/`int`/`list`, with Python's `bool` never acceptable for `int`), and an
integer lies within the declared bounds. -/
def valueAcceptable (sch : OptSchema) : Value → Prop
  | .vBool _ => sch.type = .bool
  | .vInt n => sch.type = .int ∧ (∀ m, sch.omin = some m → m ≤ n) ∧ (∀ m, sch.omax = some m → n ≤ m)
  | .vStr _ => False
  | .vList _ => sch.type = .list

theorem entryErrors_eq_nil_iff (k : String) (sch : OptSchema) (v : Value) :
    entryErrors k sch v = [] ↔ valueAcceptable sch v := by
  cases v with
  | vBool b =>
      cases htype : sch.type <;>
        simp [entryErrors, valueAcceptable, htype, pyIsInstBool, pyIsInstInt, pyIsInstList]
  | vStr s =>
      cases htype : sch.type <;>
        simp [entryErrors, valueAcceptable, htype, pyIsInstBool, pyIsInstInt, pyIsInstList]
  | vList xs =>
      cases htype : sch.type <;>
        simp [entryErrors, valueAcceptable, htype, pyIsInstBool, pyIsInstInt, pyIsInstList]
  | vInt n =>
      cases htype : sch.type with
      | bool => simp [entryErrors, valueAcceptable, htype, pyIsInstBool]
      | list => simp [entryErrors, valueAcceptable, htype, pyIsInstList]
      | int =>
          have hA : entryErrors k sch (.vInt n) =
              (match sch.omin with
                | some m =>
                    if n < m then [k ++ ": minimum is " ++ toString m ++ ", got " ++ toString n]
                    else []
                | none => []) ++
              (match sch.omax with
                | some m =>
                    if m < n then [k ++ ": maximum is " ++ toString m ++ ", got " ++ toString n]
                    else []
                | none => []) := by
            rcases hmin : sch.omin with _ | m₀ <;> rcases hmax : sch.omax with _ | m₁ <;>
              simp [entryErrors, htype, pyIsInstInt, pyIsInstBool, hmin, hmax]
          rw [hA]
          simp only [valueAcceptable, htype, true_and, List.append_eq_nil]
          rcases hmin : sch.omin with _ | m₀ <;> rcases hmax : sch.omax with _ | m₁ <;>
            simp [hmin, hmax]

theorem validate_flatMap_congr (c₁ c₂ : Dict) (l : PDict OptSchema)
    (h : ∀ p, p ∈ l → dget c₁ p.1 = dget c₂ p.1) :
    (l.flatMap (fun p =>
      match dget c₁ p.1 with
      | none => []
      | some v => entryErrors p.1 p.2 v)) =
    (l.flatMap (fun p =>
      match dget c₂ p.1 with
      | none => []
      | some v => entryErrors p.1 p.2 v)) := by
  induction l with
  | nil => rfl
  | cons p l ih =>
      simp only [List.flatMap_cons]
      rw [h p (by simp), ih (fun q hq => h q (by simp [hq]))]

theorem validate_eq_nil_iff (c : Dict) :
    validate_config c = [] ↔
      ∀ p, p ∈ CONFIG_SCHEMA → ∀ v, dget c p.1 = some v → valueAcceptable p.2 v := by
  unfold validate_config
  rw [List.flatMap_eq_nil_iff]
  constructor
  · intro h p hp v hv
    have := h p hp
    rw [hv] at this
    exact (entryErrors_eq_nil_iff _ _ _).1 this
  · intro h p hp
    cases hv : dget c p.1 with
    | none => rfl
    | some v => exact (entryErrors_eq_nil_iff _ _ _).2 (h p hp v hv)

theorem entryError_mem_validate (c : Dict) (k : String) (sch : OptSchema) (v : Value)
    (hp : (k, sch) ∈ CONFIG_SCHEMA) (hv : dget c k = some v) (e : String)
    (he : e ∈ entryErrors k sch v) :
    e ∈ validate_config c := by
  unfold validate_config
  rw [List.mem_flatMap]
  refine ⟨(k, sch), hp, ?_⟩
  rw [hv]
  exact he

/-- C4: `validate_config` returns no error for the schema defaults; it reads
only the values of schema keys present in the candidate (and mutates
nothing — it is a pure function of those lookups); it returns the empty list
exactly when every schema key present in the candidate carries an acceptable
value (kind match and bound compliance); a `bool`-kind key present with a
non-boolean value yields the corresponding "expected bool" error in the
result, and an `int`-kind key present with an integer below its declared
minimum or above its declared maximum makes the result non-empty. -/
theorem C4_validate_contract :
    validate_config defaultsDict = [] ∧
    (∀ c₁ c₂, (∀ p, p ∈ CONFIG_SCHEMA → dget c₁ p.1 = dget c₂ p.1) →
      validate_config c₁ = validate_config c₂) ∧
    (∀ c, validate_config c = [] ↔
      ∀ p, p ∈ CONFIG_SCHEMA → ∀ v, dget c p.1 = some v → valueAcceptable p.2 v) ∧
    (∀ c k sch v, (k, sch) ∈ CONFIG_SCHEMA → sch.type = .bool → dget c k = some v →
      pyIsInstBool v = false → (k ++ ": expected bool, got " ++ typeName v) ∈ validate_config c) ∧
    (∀ c k sch n m, (k, sch) ∈ CONFIG_SCHEMA → sch.type = .int →
      dget c k = some (.vInt n) →
      ((sch.omin = some m ∧ n < m) ∨ (sch.omax = some m ∧ m < n)) →
      validate_config c ≠ []) := by
  refine ⟨by decide, ?_, validate_eq_nil_iff, ?_, ?_⟩
  · intro c₁ c₂ h
    exact validate_flatMap_congr c₁ c₂ CONFIG_SCHEMA h
  · intro c k sch v hp htype hv hb
    refine entryError_mem_validate c k sch v hp hv _ ?_
    simp [entryErrors, htype, hb]
  · intro c k sch n m hp htype hv hbound hnil
    have h := (validate_eq_nil_iff c).1 hnil (k, sch) hp _ hv
    simp only [valueAcceptable] at h
    rcases hbound with ⟨hm, hlt⟩ | ⟨hm, hlt⟩
    · have := h.2.1 m hm
      omega
    · have := h.2.2 m hm
      omega

/-- Witness for C4: the defaults validate cleanly, and a non-boolean value
for the boolean `prefetch` option is rejected with the expected message. -/
theorem C4_validate_contract_witness :
    validate_config defaultsDict = [] ∧
    ("prefetch: expected bool, got int") ∈ validate_config [("prefetch", Value.vInt 3)] := by
  have h := C4_validate_contract
  refine ⟨h.1, ?_⟩
  have h4 := h.2.2.2.1 [("prefetch", Value.vInt 3)] "prefetch" ⟨.bool, .vBool true, none, none, false⟩
    (Value.vInt 3) (by decide) rfl (by decide) rfl
  exact h4

/-- C10: for every `int`-kind schema option, a boolean value passes Python's
`isinstance(val, int)` (booleans are an `int` subtype) and is nevertheless
rejected by `validate_config` with an "expected int, got bool" error — the
boolean and integer kinds are disjoint for validation. -/
theorem C10_int_rejects_bool :
    ∀ k sch, (k, sch) ∈ CONFIG_SCHEMA → sch.type = .int →
      ∀ (b : Bool) (c : Dict), dget c k = some (.vBool b) →
        pyIsInstInt (.vBool b) = true ∧
        (k ++ ": expected int, got " ++ "bool") ∈ validate_config c := by
  intro k sch hp htype b c hv
  refine ⟨rfl, ?_⟩
  refine entryError_mem_validate c k sch (.vBool b) hp hv _ ?_
  simp [entryErrors, htype, pyIsInstInt, pyIsInstBool, typeName]

/-- Witness for C10 at the `num_threads` option with value `True`. -/
theorem C10_int_rejects_bool_witness :
    pyIsInstInt (.vBool true) = true ∧
    ("num_threads" ++ ": expected int, got " ++ "bool") ∈
      validate_config [("num_threads", Value.vBool true)] := by
  exact C10_int_rejects_bool "num_threads" ⟨.int, .vInt 2, some 1, some 16, true⟩
    (by decide) rfl true [("num_threads", Value.vBool true)] (by decide)

/-! ### Claim C8: stats parsing -/

/-- The value of the chronologically last line that contributes key `k`
(later duplicates overwrite earlier ones). -/
def lastStatVal (lines : List String) (k : String) : Option String :=
  lines.reverse.findSome? (fun line =>
    match statLineKV line with
    | some kv => if kv.1 = k then some kv.2 else none
    | none => none)

theorem findSome_single {α β : Type} (f : α → Option β) (a : α) :
    [a].findSome? f = f a := by
  cases h : f a <;> simp [List.findSome?_cons, h]

theorem dget_foldl_statStep (lines : List String) (d : PDict String) (k : String) :
    dget (lines.foldl statStep d) k = (lastStatVal lines k).or (dget d k) := by
  induction lines generalizing d with
  | nil => simp [lastStatVal]
  | cons l ls ih =>
      have hsplit : lastStatVal (l :: ls) k =
          (lastStatVal ls k).or (match statLineKV l with
            | some kv => if kv.1 = k then some kv.2 else none
            | none => none) := by
        unfold lastStatVal
        rw [List.reverse_cons, List.findSome?_append, findSome_single]
      rw [List.foldl_cons, ih, hsplit]
      cases hA : lastStatVal ls k with
      | some v => simp [Option.or]
      | none =>
          simp only [Option.none_or]
          cases hl : statLineKV l with
          | none => simp [statStep, hl]
          | some kv =>
              by_cases hk : kv.1 = k
              · subst hk
                simp [statStep, hl, dget_dset_self]
              · simp [statStep, hl, hk, dget_dset_ne d kv.1 k kv.2 (fun h => hk h.symm)]

/-- C8: `parse_stats` is characterised line by line: looking up any key in the
result gives the stripped value of the last line containing `=` whose stripped
key (the text before the first `=`) matches — so lines without `=` are
ignored and later duplicate keys overwrite earlier ones; a line contributes
exactly when it contains `=`, with key/value the stripped halves around the
first `=`; and the concrete example parses as specified. -/
theorem C8_parse_stats_contract :
    (∀ raw k, dget (parse_stats raw) k = lastStatVal (pySplitChar '\n' (pyStrip raw)) k) ∧
    (∀ line, statLineKV line =
      (if '=' ∈ line.data then
        some (pyStrip ⟨line.data.takeWhile (fun c => c ≠ '=')⟩,
              pyStrip ⟨(line.data.dropWhile (fun c => c ≠ '=')).tail⟩)
      else none)) ∧
    parse_stats "a.b=1\nc.d=2\n" = [("a.b", "1"), ("c.d", "2")] := by
  refine ⟨?_, fun line => rfl, by decide⟩
  intro raw k
  unfold parse_stats
  rw [dget_foldl_statStep]
  simp [dget]

/-! ### Claim C9: divide-by-zero guards -/

theorem pyRound1_zero : pyRound1 0 = 0 := by
  norm_num [pyRound1, roundHalfEven]

/-- C9: whenever `api_stats` produces a response, a `total.num.queries` value
that is absent or parses to `0` makes the reported `cache_hit_rate` exactly
`0` (the guarded branch, never a division), and a `time.up` value that is
absent or parses to `0` makes the reported `queries_per_sec` exactly `0`. -/
theorem C9_divzero_guards :
    ∀ (stats : PDict String) (m : ApiMetrics), api_stats_metrics stats = some m →
      ((dget stats "total.num.queries" = none ∨
          (∃ s, dget stats "total.num.queries" = some s ∧ pyFloat s = some 0)) →
        m.cache_hit_rate = 0) ∧
      ((dget stats "time.up" = none ∨
          (∃ s, dget stats "time.up" = some s ∧ pyFloat s = some 0)) →
        m.queries_per_sec = 0) := by
  intro stats m happ
  constructor
  · intro h
    have htq : statF stats "total.num.queries" = some 0 := by
      rcases h with h | ⟨s, hs, hf⟩
      · simp [statF, h]
      · simp [statF, hs, hf]
    rcases hch : statF stats "total.num.cachehits" with _ | ch <;>
      rcases hcm : statF stats "total.num.cachemiss" with _ | cm <;>
        rcases hup : statF stats "time.up" with _ | up <;>
          simp [api_stats_metrics, htq, hch, hcm, hup] at happ
    rw [← happ]
    simp [lt_irrefl, pyRound1_zero]
  · intro h
    have hup : statF stats "time.up" = some 0 := by
      rcases h with h | ⟨s, hs, hf⟩
      · simp [statF, h]
      · simp [statF, hs, hf]
    rcases htq : statF stats "total.num.queries" with _ | tq <;>
      rcases hch : statF stats "total.num.cachehits" with _ | ch <;>
        rcases hcm : statF stats "total.num.cachemiss" with _ | cm <;>
          simp [api_stats_metrics, htq, hch, hcm, hup] at happ
    rw [← happ]

/-- Witness for C9: an empty stats mapping (all metrics absent) yields a
response with hit rate 0 and queries/sec 0. -/
theorem C9_divzero_guards_witness :
    api_stats_metrics [] = some ⟨0, 0⟩ ∧
    (⟨0, 0⟩ : ApiMetrics).cache_hit_rate = 0 ∧
    (⟨0, 0⟩ : ApiMetrics).queries_per_sec = 0 := by
  have e : api_stats_metrics [] = some ⟨0, 0⟩ := by
    simp +decide [api_stats_metrics, statF, dget]
    norm_num [pyRound1, roundHalfEven]
  have h := C9_divzero_guards [] ⟨0, 0⟩ e
  exact ⟨e, h.1 (Or.inl rfl), h.2 (Or.inl rfl)⟩

/-! ### Claim C6: render purity -/

/-- Every config key `generate_unbound_conf` reads (bracket accesses plus
`.get` accesses); its output is a function of the values of these keys
alone. -/
def renderKeys : List String :=
  ["do_ip4", "do_ip6", "prefer_ip4", "num_threads", "prefetch", "fast_server_permil",
   "fast_server_num", "cache_min_ttl", "cache_max_ttl", "qname_minimisation", "hide_identity",
   "hide_version", "verbosity", "log_queries", "access_control", "enable_dnssec",
   "forward_servers", "forward_tls"]

theorem generate_depends_only_on_renderKeys (c₁ c₂ : Dict)
    (h : ∀ k, k ∈ renderKeys → dget c₁ k = dget c₂ k) :
    generate_unbound_conf c₁ = generate_unbound_conf c₂ := by
  have e01 := h "do_ip4" (by decide)
  have e02 := h "do_ip6" (by decide)
  have e03 := h "prefer_ip4" (by decide)
  have e04 := h "num_threads" (by decide)
  have e05 := h "prefetch" (by decide)
  have e06 := h "fast_server_permil" (by decide)
  have e07 := h "fast_server_num" (by decide)
  have e08 := h "cache_min_ttl" (by decide)
  have e09 := h "cache_max_ttl" (by decide)
  have e10 := h "qname_minimisation" (by decide)
  have e11 := h "hide_identity" (by decide)
  have e12 := h "hide_version" (by decide)
  have e13 := h "verbosity" (by decide)
  have e14 := h "log_queries" (by decide)
  have e15 := h "access_control" (by decide)
  have e16 := h "enable_dnssec" (by decide)
  have e17 := h "forward_servers" (by decide)
  have e18 := h "forward_tls" (by decide)
  simp only [generate_unbound_conf, cfgV, renderRequiredKeys, List.all_cons, List.all_nil]
  rw [e01, e02, e03, e04, e05, e06, e07, e08, e09, e10, e11, e12, e13, e14, e15, e16, e17, e18]

theorem generate_total_on_valid (c : Dict)
    (hcomp : ∀ k, (dget defaultsDict k).isSome → (dget c k).isSome)
    (hv : validate_config c = []) :
    (generate_unbound_conf c).isSome := by
  have hvv := (validate_eq_nil_iff c).1 hv
  obtain ⟨va, hva⟩ := Option.isSome_iff_exists.1 (hcomp "access_control" (by decide))
  have haA := hvv ("access_control",
      ⟨.list, .vList ["127.0.0.0/8", "10.0.0.0/8", "172.16.0.0/12", "192.168.0.0/16"], none, none, false⟩)
    (by decide) va hva
  obtain ⟨xsa, hxa⟩ : ∃ xs, va = .vList xs := by
    cases va with
    | vList xs => exact ⟨xs, rfl⟩
    | vBool b => simp [valueAcceptable] at haA
    | vInt n => simp [valueAcceptable] at haA
    | vStr s => simp [valueAcceptable] at haA
  obtain ⟨vf, hvf⟩ := Option.isSome_iff_exists.1 (hcomp "forward_servers" (by decide))
  have hfA := hvv ("forward_servers", ⟨.list, .vList [], none, none, false⟩) (by decide) vf hvf
  obtain ⟨xsf, hxf⟩ : ∃ xs, vf = .vList xs := by
    cases vf with
    | vList xs => exact ⟨xs, rfl⟩
    | vBool b => simp [valueAcceptable] at hfA
    | vInt n => simp [valueAcceptable] at hfA
    | vStr s => simp [valueAcceptable] at hfA
  subst hxa hxf
  have hguard : renderRequiredKeys.all (fun k => (dget c k).isSome) = true := by
    simp only [renderRequiredKeys, List.all_cons, List.all_nil, Bool.and_eq_true, Bool.and_true]
    exact ⟨hcomp _ (by decide), hcomp _ (by decide), hcomp _ (by decide), hcomp _ (by decide),
      hcomp _ (by decide), hcomp _ (by decide), hcomp _ (by decide), hcomp _ (by decide),
      hcomp _ (by decide), hcomp _ (by decide), hcomp _ (by decide), hcomp _ (by decide),
      hcomp _ (by decide), hcomp _ (by decide)⟩
  simp only [generate_unbound_conf, hguard, Bool.not_true, Bool.false_eq_true, if_false,
    hva, hvf, Option.getD, pyIterStrs, Option.bind]
  cases ht : truthy (Value.vList xsf) <;> simp [ht, pyIterStrs]

/-- C6: `generate_unbound_conf` is a pure function — the same configuration
always renders to the same bytes; its output depends only on the values of
the keys it reads (`renderKeys`), so two configurations agreeing on those
keys render identically (equivalently, outputs differ only when one of the
rendered-from fields differs); and on every genuine Configuration (complete
per the schema and passing validation) rendering succeeds. -/
theorem C6_render_pure_deterministic :
    (∀ c, generate_unbound_conf c = generate_unbound_conf c) ∧
    (∀ c₁ c₂, (∀ k, k ∈ renderKeys → dget c₁ k = dget c₂ k) →
      generate_unbound_conf c₁ = generate_unbound_conf c₂) ∧
    (∀ c, (∀ k, (dget defaultsDict k).isSome → (dget c k).isSome) →
      validate_config c = [] → (generate_unbound_conf c).isSome) :=
  ⟨fun _ => rfl, generate_depends_only_on_renderKeys, generate_total_on_valid⟩

/-- Witness for C6: changing the one schema key render does not read
(`custom_config`) leaves the output identical, and the defaults render
successfully. -/
theorem C6_render_pure_deterministic_witness :
    generate_unbound_conf defaultsDict =
      generate_unbound_conf (dset defaultsDict "custom_config" (Value.vBool true)) ∧
    (generate_unbound_conf defaultsDict).isSome := by
  have h := C6_render_pure_deterministic
  refine ⟨h.2.1 _ _ ?_, h.2.2 defaultsDict (fun k hk => hk) (by decide)⟩
  intro k hk
  fin_cases hk <;> decide

/-! ### Set-representation and ordering lemmas for the blocklist aggregate -/

theorem mem_setInsert (xs : List String) (d a : String) :
    a ∈ setInsert xs d ↔ a ∈ xs ∨ a = d := by
  by_cases h : d ∈ xs
  · simp only [setInsert, h, if_true]
    exact ⟨Or.inl, fun hor => hor.elim id (fun he => he ▸ h)⟩
  · simp [setInsert, h]

theorem nodup_setInsert (xs : List String) (d : String) (h : xs.Nodup) :
    (setInsert xs d).Nodup := by
  by_cases hd : d ∈ xs
  · simpa [setInsert, hd] using h
  · simp [setInsert, hd, List.nodup_append, h]

theorem mem_setUnion (xs ys : List String) (a : String) :
    a ∈ setUnion xs ys ↔ a ∈ xs ∨ a ∈ ys := by
  induction ys generalizing xs with
  | nil => simp [setUnion]
  | cons y ys ih =>
      show a ∈ setUnion (setInsert xs y) ys ↔ _
      rw [ih, mem_setInsert]
      simp [or_assoc]

theorem nodup_setUnion (xs ys : List String) (h : xs.Nodup) :
    (setUnion xs ys).Nodup := by
  induction ys generalizing xs with
  | nil => exact h
  | cons y ys ih => exact ih _ (nodup_setInsert xs y h)

theorem mem_setMinus (xs ys : List String) (a : String) :
    a ∈ setMinus xs ys ↔ a ∈ xs ∧ a ∉ ys := by
  simp [setMinus, List.mem_filter]

theorem nodup_setMinus (xs ys : List String) (h : xs.Nodup) :
    (setMinus xs ys).Nodup := h.filter _

theorem lexLe_total (a b : List Char) : lexLe a b = true ∨ lexLe b a = true := by
  induction a generalizing b with
  | nil => exact Or.inl rfl
  | cons x xs ih =>
      cases b with
      | nil => exact Or.inr rfl
      | cons y ys =>
          by_cases hxy : x = y
          · subst hxy
            rcases ih ys with h | h
            · exact Or.inl (by simp [lexLe, h])
            · exact Or.inr (by simp [lexLe, h])
          · rcases Ne.lt_or_lt hxy with h | h
            · exact Or.inl (by simp [lexLe, beq_iff_eq, hxy, h])
            · exact Or.inr (by simp [lexLe, beq_iff_eq, Ne.symm hxy, h])

theorem lexLe_trans (a b c : List Char) (hab : lexLe a b = true) (hbc : lexLe b c = true) :
    lexLe a c = true := by
  induction a generalizing b c with
  | nil => rfl
  | cons x xs ih =>
      cases b with
      | nil => simp [lexLe] at hab
      | cons y ys =>
          cases c with
          | nil => simp [lexLe] at hbc
          | cons z zs =>
              by_cases hxy : x = y <;> by_cases hyz : y = z
              · subst hxy; subst hyz
                simp only [lexLe, beq_self_eq_true, if_true] at hab hbc ⊢
                exact ih ys zs hab hbc
              · subst hxy
                simp only [lexLe, beq_self_eq_true, if_true, beq_iff_eq, hyz, if_false] at hbc ⊢
                simp only [decide_eq_true_eq] at hbc
                simp [hyz, hbc]
              · subst hyz
                simp only [lexLe, beq_self_eq_true, if_true, beq_iff_eq, hxy, if_false] at hab ⊢
                simp only [decide_eq_true_eq] at hab
                simp [hxy, hab]
              · simp only [lexLe, beq_iff_eq, hxy, hyz, if_false, decide_eq_true_eq] at hab hbc
                have hxz : x < z := lt_trans hab hbc
                simp [lexLe, beq_iff_eq, ne_of_lt hxz, hxz]

theorem lexLe_antisymm (a b : List Char) (hab : lexLe a b = true) (hba : lexLe b a = true) :
    a = b := by
  induction a generalizing b with
  | nil =>
      cases b with
      | nil => rfl
      | cons y ys => simp [lexLe] at hba
  | cons x xs ih =>
      cases b with
      | nil => simp [lexLe] at hab
      | cons y ys =>
          by_cases hxy : x = y
          · subst hxy
            simp only [lexLe, beq_self_eq_true, if_true] at hab hba
            rw [ih ys hab hba]
          · simp only [lexLe, beq_iff_eq, hxy, Ne.symm hxy, if_false, decide_eq_true_eq] at hab hba
            exact absurd hba (asymm hab)

instance strLe.total : IsTotal String strLe := ⟨fun a b => lexLe_total a.data b.data⟩

instance strLe.trans : IsTrans String strLe := ⟨fun a b c => lexLe_trans a.data b.data c.data⟩

instance strLe.antisymm : IsAntisymm String strLe :=
  ⟨fun a b h1 h2 => by
    cases a with
    | mk da =>
        cases b with
        | mk db => exact congrArg String.mk (lexLe_antisymm da db h1 h2)⟩

/-! ### Claim C7 (corrected): host-file line parsing and the exclusion set -/

theorem parseHostLine_some_iff (line d : String) :
    parseHostLine line = some d ↔
      (pyStrip line ≠ "" ∧
       pyStartsWith (pyStrip line) "#" = false ∧
       (2 ≤ (pySplitWs (pyStrip line)).length ∧
        ((pySplitWs (pyStrip line)).headD "" = "0.0.0.0" ∨
         (pySplitWs (pyStrip line)).headD "" = "127.0.0.1")) ∧
       (pyLower (pyStrip (((pySplitWs (pyStrip line))[1]?).getD "")) ≠ "" ∧
        pyLower (pyStrip (((pySplitWs (pyStrip line))[1]?).getD "")) ∉ BLOCKLIST_SKIP_DOMAINS) ∧
       d = pyLower (pyStrip (((pySplitWs (pyStrip line))[1]?).getD ""))) := by
  unfold parseHostLine
  constructor
  · intro h
    by_cases h1 : pyStrip line = ""
    · rw [if_pos h1] at h
      cases h
    · rw [if_neg h1] at h
      cases h2 : pyStartsWith (pyStrip line) "#"
      · rw [if_neg (by simp [h2])] at h
        by_cases h3 : 2 ≤ (pySplitWs (pyStrip line)).length ∧
            ((pySplitWs (pyStrip line)).headD "" = "0.0.0.0" ∨
             (pySplitWs (pyStrip line)).headD "" = "127.0.0.1")
        · rw [if_pos h3] at h
          by_cases h4 : pyLower (pyStrip (((pySplitWs (pyStrip line))[1]?).getD "")) ≠ "" ∧
              pyLower (pyStrip (((pySplitWs (pyStrip line))[1]?).getD "")) ∉ BLOCKLIST_SKIP_DOMAINS
          · rw [if_pos h4] at h
            exact ⟨h1, rfl, h3, h4, (Option.some.inj h).symm⟩
          · rw [if_neg h4] at h
            cases h
        · rw [if_neg h3] at h
          cases h
      · rw [if_pos (by simp [h2])] at h
        cases h
  · rintro ⟨h1, h2, h3, h4, rfl⟩
    rw [if_neg h1, if_neg (by simp [h2]), if_pos h3, if_pos h4]

theorem parseHostLine_skip (line d : String) (h : parseHostLine line = some d) :
    d ∉ BLOCKLIST_SKIP_DOMAINS := by
  obtain ⟨-, -, -, h4, hd⟩ := (parseHostLine_some_iff line d).1 h
  exact hd ▸ h4.2

theorem mem_foldl_parseStep (lines : List String) (acc : List String) (a : String) :
    a ∈ lines.foldl parseStep acc ↔ a ∈ acc ∨ ∃ line ∈ lines, parseHostLine line = some a := by
  induction lines generalizing acc with
  | nil => simp
  | cons l ls ih =>
      simp only [List.foldl_cons]
      rw [ih]
      cases hl : parseHostLine l with
      | none =>
          simp only [parseStep, hl]
          constructor
          · rintro (h | ⟨x, hx, hp⟩)
            · exact Or.inl h
            · exact Or.inr ⟨x, List.mem_cons_of_mem l hx, hp⟩
          · rintro (h | ⟨x, hx, hp⟩)
            · exact Or.inl h
            · rcases List.mem_cons.1 hx with rfl | hx2
              · rw [hl] at hp
                cases hp
              · exact Or.inr ⟨x, hx2, hp⟩
      | some dl =>
          simp only [parseStep, hl, mem_setInsert]
          constructor
          · rintro ((h | h) | ⟨x, hx, hp⟩)
            · exact Or.inl h
            · exact Or.inr ⟨l, List.mem_cons_self l ls, by rw [hl, h]⟩
            · exact Or.inr ⟨x, List.mem_cons_of_mem l hx, hp⟩
          · rintro (h | ⟨x, hx, hp⟩)
            · exact Or.inl (Or.inl h)
            · rcases List.mem_cons.1 hx with rfl | hx2
              · rw [hl] at hp
                exact Or.inl (Or.inr (Option.some.inj hp).symm)
              · exact Or.inr ⟨x, hx2, hp⟩

theorem nodup_foldl_parseStep (lines : List String) (acc : List String) (h : acc.Nodup) :
    (lines.foldl parseStep acc).Nodup := by
  induction lines generalizing acc with
  | nil => exact h
  | cons l ls ih =>
      apply ih
      cases hl : parseHostLine l with
      | none => simpa [parseStep, hl] using h
      | some dl =>
          simp only [parseStep, hl]
          exact nodup_setInsert acc dl h

theorem mem_parseBody (body : String) (a : String) :
    a ∈ parseBody body ↔ ∃ line ∈ pySplitChar '\n' body, parseHostLine line = some a := by
  unfold parseBody
  rw [mem_foldl_parseStep]
  simp

theorem nodup_parseBody (body : String) : (parseBody body).Nodup :=
  nodup_foldl_parseStep _ _ List.nodup_nil

theorem foldl_refreshStep_skip (fetch : String → FetchResult) (now : Nat)
    (urls : List String) (acc : List String × List (String × String) × PDict StatusEntry)
    (s : String) (hs : s ∈ BLOCKLIST_SKIP_DOMAINS) (hacc : s ∉ acc.1) :
    s ∉ (urls.foldl (refreshStep fetch now) acc).1 := by
  induction urls generalizing acc with
  | nil => exact hacc
  | cons u us ih =>
      simp only [List.foldl_cons]
      apply ih
      cases hf : fetch u with
      | ok body =>
          simp only [refreshStep, hf]
          rw [mem_setUnion]
          rintro (h | h)
          · exact hacc h
          · obtain ⟨line, -, hp⟩ := (mem_parseBody body s).1 h
            exact parseHostLine_skip line s hp hs
      | fail e => simpa [refreshStep, hf] using hacc
      | exc e => simpa [refreshStep, hf] using hacc

/-- C7 counterexample: the line `"0.0.0.0 localhost"` is non-empty, is not a
comment, and its first whitespace-delimited token is `0.0.0.0`, yet it
contributes no candidate domain (its second token is in the fixed exclusion
set) — refuting the claimed iff. -/
theorem C7_counterexample :
    parseHostLine "0.0.0.0 localhost" = none ∧
    pyStrip "0.0.0.0 localhost" ≠ "" ∧
    pyStartsWith (pyStrip "0.0.0.0 localhost") "#" = false ∧
    (pySplitWs (pyStrip "0.0.0.0 localhost")).headD "" = "0.0.0.0" := by
  exact ⟨by decide, by decide, by decide, by decide⟩

/-- C7 (amended): a fetched line contributes a candidate domain iff, after
stripping, it is non-empty, is not a `#` comment, has at least two
whitespace-delimited tokens with the first being `0.0.0.0` or `127.0.0.1`,
and its second token (stripped, lower-cased) is non-empty and outside the
fixed exclusion set; the contributed domain is that lower-cased second token;
and no hostname of the exclusion set ever reaches the refresh aggregate,
for every source content, prior status, clock and whitelist configuration. -/
theorem C7_hostline_rules :
    (∀ line d, parseHostLine line = some d ↔
      (pyStrip line ≠ "" ∧
       pyStartsWith (pyStrip line) "#" = false ∧
       (2 ≤ (pySplitWs (pyStrip line)).length ∧
        ((pySplitWs (pyStrip line)).headD "" = "0.0.0.0" ∨
         (pySplitWs (pyStrip line)).headD "" = "127.0.0.1")) ∧
       (pyLower (pyStrip (((pySplitWs (pyStrip line))[1]?).getD "")) ≠ "" ∧
        pyLower (pyStrip (((pySplitWs (pyStrip line))[1]?).getD "")) ∉ BLOCKLIST_SKIP_DOMAINS) ∧
       d = pyLower (pyStrip (((pySplitWs (pyStrip line))[1]?).getD "")))) ∧
    (∀ (blocklists whitelistRaw : List String) (status0 : PDict StatusEntry)
       (fetch : String → FetchResult) (now : Nat) (reloadOk : Bool) (s : String),
       s ∈ BLOCKLIST_SKIP_DOMAINS →
       s ∉ (do_blocklist_refresh blocklists whitelistRaw status0 fetch now reloadOk).blockedSet) := by
  refine ⟨parseHostLine_some_iff, ?_⟩
  intro blocklists whitelistRaw status0 fetch now reloadOk s hs hmem
  have hall : s ∈ (blocklists.foldl (refreshStep fetch now) ([], [], status0)).1 := by
    have := (mem_setMinus _ _ s).1 hmem
    exact this.1
  exact foldl_refreshStep_skip fetch now blocklists ([], [], status0) s hs (by simp) hall

/-- Witness for C7: a source serving `0.0.0.0 localhost` does not get
`localhost` into the refresh aggregate. -/
theorem C7_hostline_rules_witness :
    "localhost" ∈ BLOCKLIST_SKIP_DOMAINS ∧
    "localhost" ∉ (do_blocklist_refresh ["u"] [] []
      (fun _ => .ok "0.0.0.0 localhost\n0.0.0.0 x.com") 0 true).blockedSet := by
  exact ⟨by decide, C7_hostline_rules.2 ["u"] [] [] _ 0 true "localhost" (by decide)⟩

/-! ### Claim C3: the three-source refresh scenario -/

theorem C3_aux (uA uB uC bodyA bodyC eB : String) (status0 : PDict StatusEntry)
    (fetch : String → FetchResult) (now : Nat) (ro : Bool) (sB : StatusEntry)
    (hAB : uA ≠ uB) (hAC : uA ≠ uC) (hBC : uB ≠ uC)
    (hfold : [uA, uB, uC].foldl (refreshStep fetch now) ([], [], status0) =
      (setUnion (setUnion [] (parseBody bodyA)) (parseBody bodyC), [(uB, eB)],
       dset (dset (dset status0 uA ⟨(parseBody bodyA).length, now, none⟩) uB sB) uC
         ⟨(parseBody bodyC).length, now, none⟩))
    (hsBdom : sB.domains = 0)
    (hpa : ∀ x, x ∈ parseBody bodyA ↔ (x = "x.com" ∨ x = "y.com"))
    (hla : (parseBody bodyA).length = 2)
    (hpc : ∀ x, x ∈ parseBody bodyC ↔ (x = "y.com" ∨ x = "z.com"))
    (hlc : (parseBody bodyC).length = 2) :
    (do_blocklist_refresh [uA, uB, uC] ["y.com"] status0 fetch now ro).confText =
      "local-zone: \"x.com.\" always_refuse\nlocal-zone: \"z.com.\" always_refuse\n" ∧
    (do_blocklist_refresh [uA, uB, uC] ["y.com"] status0 fetch now ro).domains_blocked = 2 ∧
    (do_blocklist_refresh [uA, uB, uC] ["y.com"] status0 fetch now ro).errors = [(uB, eB)] ∧
    (dget (do_blocklist_refresh [uA, uB, uC] ["y.com"] status0 fetch now ro).status uA).map
      StatusEntry.domains = some 2 ∧
    (dget (do_blocklist_refresh [uA, uB, uC] ["y.com"] status0 fetch now ro).status uB).map
      StatusEntry.domains = some 0 ∧
    (dget (do_blocklist_refresh [uA, uB, uC] ["y.com"] status0 fetch now ro).status uC).map
      StatusEntry.domains = some 2 := by
  have h1 : ([uA, uB, uC].foldl (refreshStep fetch now) ([], [], status0)).1 =
      setUnion (setUnion [] (parseBody bodyA)) (parseBody bodyC) := by rw [hfold]
  have h2 : ([uA, uB, uC].foldl (refreshStep fetch now) ([], [], status0)).2.1 = [(uB, eB)] := by
    rw [hfold]
  have h3 : ([uA, uB, uC].foldl (refreshStep fetch now) ([], [], status0)).2.2 =
      dset (dset (dset status0 uA ⟨(parseBody bodyA).length, now, none⟩) uB sB) uC
        ⟨(parseBody bodyC).length, now, none⟩ := by rw [hfold]
  have hwl : ((["y.com"] : List String).map pyLower).foldl setInsert [] = ["y.com"] := by decide
  have hmem : ∀ x, x ∈ setMinus (setUnion (setUnion [] (parseBody bodyA)) (parseBody bodyC))
      ["y.com"] ↔ (x = "x.com" ∨ x = "z.com") := by
    intro x
    rw [mem_setMinus, mem_setUnion, mem_setUnion]
    simp only [List.not_mem_nil, false_or, List.mem_singleton]
    rw [hpa x, hpc x]
    constructor
    · rintro ⟨(h | h) | (h | h), hy⟩
      · exact Or.inl h
      · exact absurd h hy
      · exact absurd h hy
      · exact Or.inr h
    · rintro (rfl | rfl)
      · exact ⟨Or.inl (Or.inl rfl), by decide⟩
      · exact ⟨Or.inr (Or.inr rfl), by decide⟩
  have hnodup : (setMinus (setUnion (setUnion [] (parseBody bodyA)) (parseBody bodyC))
      ["y.com"]).Nodup :=
    nodup_setMinus _ _ (nodup_setUnion _ _ (nodup_setUnion _ _ List.nodup_nil))
  have hperm : List.Perm (setMinus (setUnion (setUnion [] (parseBody bodyA)) (parseBody bodyC))
      ["y.com"]) ["x.com", "z.com"] := by
    refine List.perm_of_nodup_nodup_toFinset_eq hnodup (by decide) ?_
    ext x
    simp only [List.mem_toFinset]
    rw [hmem x]
    simp
  have hsort : List.insertionSort strLe
      (setMinus (setUnion (setUnion [] (parseBody bodyA)) (parseBody bodyC)) ["y.com"]) =
      ["x.com", "z.com"] :=
    List.eq_of_perm_of_sorted ((List.perm_insertionSort strLe _).trans hperm)
      (List.sorted_insertionSort strLe _) (by decide)
  refine ⟨?_, ?_, ?_, ?_, ?_, ?_⟩
  · show strJoin ((List.insertionSort strLe (setMinus
        ([uA, uB, uC].foldl (refreshStep fetch now) ([], [], status0)).1
        (((["y.com"] : List String).map pyLower).foldl setInsert []))).map
        (fun domain => "local-zone: \"" ++ domain ++ ".\" always_refuse\n")) = _
    rw [h1, hwl, hsort]
    decide
  · show (setMinus ([uA, uB, uC].foldl (refreshStep fetch now) ([], [], status0)).1
        (((["y.com"] : List String).map pyLower).foldl setInsert [])).length = 2
    rw [h1, hwl]
    exact hperm.length_eq
  · show ([uA, uB, uC].foldl (refreshStep fetch now) ([], [], status0)).2.1 = [(uB, eB)]
    exact h2
  · show (dget ([uA, uB, uC].foldl (refreshStep fetch now) ([], [], status0)).2.2 uA).map
        StatusEntry.domains = some 2
    rw [h3, dget_dset_ne _ _ _ _ hAC, dget_dset_ne _ _ _ _ hAB, dget_dset_self]
    simp [hla]
  · show (dget ([uA, uB, uC].foldl (refreshStep fetch now) ([], [], status0)).2.2 uB).map
        StatusEntry.domains = some 0
    rw [h3, dget_dset_ne _ _ _ _ hBC, dget_dset_self]
    simp [hsBdom]
  · show (dget ([uA, uB, uC].foldl (refreshStep fetch now) ([], [], status0)).2.2 uC).map
        StatusEntry.domains = some 2
    rw [h3, dget_dset_self]
    simp [hlc]

/-- C3: in the three-source refresh scenario — source A yields exactly
{x.com, y.com} (two domains), B's fetch fails (non-zero exit or exception)
with error text `eB`, C yields exactly {y.com, z.com}, and the whitelist is
{y.com} — `refresh` writes exactly the sorted directives for x.com and z.com
to the policy file, reports 2 blocked domains, returns exactly one error
entry (for B), and records per-source domain counts 2, 0, 2 for A, B, C:
B's failure does not prevent processing of C. -/
theorem C3_refresh_partial_failure :
    ∀ (uA uB uC bodyA bodyC eB : String) (status0 : PDict StatusEntry)
      (fetch : String → FetchResult) (now : Nat) (ro : Bool),
      uA ≠ uB → uA ≠ uC → uB ≠ uC →
      fetch uA = .ok bodyA →
      (fetch uB = .fail eB ∨ fetch uB = .exc eB) →
      fetch uC = .ok bodyC →
      (∀ x, x ∈ parseBody bodyA ↔ (x = "x.com" ∨ x = "y.com")) →
      (parseBody bodyA).length = 2 →
      (∀ x, x ∈ parseBody bodyC ↔ (x = "y.com" ∨ x = "z.com")) →
      (parseBody bodyC).length = 2 →
      ((do_blocklist_refresh [uA, uB, uC] ["y.com"] status0 fetch now ro).confText =
        "local-zone: \"x.com.\" always_refuse\nlocal-zone: \"z.com.\" always_refuse\n" ∧
      (do_blocklist_refresh [uA, uB, uC] ["y.com"] status0 fetch now ro).domains_blocked = 2 ∧
      (do_blocklist_refresh [uA, uB, uC] ["y.com"] status0 fetch now ro).errors = [(uB, eB)] ∧
      (dget (do_blocklist_refresh [uA, uB, uC] ["y.com"] status0 fetch now ro).status uA).map
        StatusEntry.domains = some 2 ∧
      (dget (do_blocklist_refresh [uA, uB, uC] ["y.com"] status0 fetch now ro).status uB).map
        StatusEntry.domains = some 0 ∧
      (dget (do_blocklist_refresh [uA, uB, uC] ["y.com"] status0 fetch now ro).status uC).map
        StatusEntry.domains = some 2) := by
  intro uA uB uC bodyA bodyC eB status0 fetch now ro hAB hAC hBC hfa hfb hfc hpa hla hpc hlc
  rcases hfb with hfb | hfb
  · refine C3_aux uA uB uC bodyA bodyC eB status0 fetch now ro
      ⟨0, now, some (pyStrip eB)⟩ hAB hAC hBC ?_ rfl hpa hla hpc hlc
    simp only [List.foldl_cons, List.foldl_nil, refreshStep, hfa, hfb, hfc, List.nil_append]
  · refine C3_aux uA uB uC bodyA bodyC eB status0 fetch now ro
      ⟨0, now, some eB⟩ hAB hAC hBC ?_ rfl hpa hla hpc hlc
    simp only [List.foldl_cons, List.foldl_nil, refreshStep, hfa, hfb, hfc, List.nil_append]

/-- Witness for C3 at concrete URLs, bodies and error text. -/
theorem C3_refresh_partial_failure_witness :
    (do_blocklist_refresh ["a.example", "b.example", "c.example"] ["y.com"] []
      (fun u => if u = "a.example" then .ok "0.0.0.0 x.com\n0.0.0.0 y.com"
        else if u = "b.example" then .fail "curl: (6) could not resolve"
        else .ok "127.0.0.1 y.com\n0.0.0.0 z.com") 7 true).confText =
      "local-zone: \"x.com.\" always_refuse\nlocal-zone: \"z.com.\" always_refuse\n" ∧
    (do_blocklist_refresh ["a.example", "b.example", "c.example"] ["y.com"] []
      (fun u => if u = "a.example" then .ok "0.0.0.0 x.com\n0.0.0.0 y.com"
        else if u = "b.example" then .fail "curl: (6) could not resolve"
        else .ok "127.0.0.1 y.com\n0.0.0.0 z.com") 7 true).errors =
      [("b.example", "curl: (6) could not resolve")] := by
  have h := C3_refresh_partial_failure "a.example" "b.example" "c.example"
    "0.0.0.0 x.com\n0.0.0.0 y.com" "127.0.0.1 y.com\n0.0.0.0 z.com"
    "curl: (6) could not resolve" []
    (fun u => if u = "a.example" then .ok "0.0.0.0 x.com\n0.0.0.0 y.com"
      else if u = "b.example" then .fail "curl: (6) could not resolve"
      else .ok "127.0.0.1 y.com\n0.0.0.0 z.com") 7 true
    (by decide) (by decide) (by decide) rfl (Or.inl rfl) rfl
    (by
      intro x
      rw [show parseBody "0.0.0.0 x.com\n0.0.0.0 y.com" = ["x.com", "y.com"] from by decide]
      simp)
    (by decide)
    (by
      intro x
      rw [show parseBody "127.0.0.1 y.com\n0.0.0.0 z.com" = ["y.com", "z.com"] from by decide]
      simp)
    (by decide)
  exact ⟨h.1, h.2.2.1⟩

example : pySplitWs "0.0.0.0	tabbed.com" = ["0.0.0.0", "tabbed.com"] := by decide
